import Mathlib

/-!
Shallow embedding of `src/app.py` (LineWorks → Backlog webhook bridge).

The Python program is a Flask app with four pieces of logic:
  * `get_lineworks_access_token` — JWT-bearer token exchange with a
    process-wide single-slot cache `access_token_cache`;
  * `get_lineworks_user_name` — authenticated user-profile lookup that
    degrades to placeholder strings on caught failures;
  * `create_backlog_issue` — ticket creation guarded by a configuration
    completeness check;
  * `callback` — the `POST /callback` handler: signature verification,
    JSON parsing, and dispatch on the event `type`.

External effects (JWT signing, the three outbound HTTP calls, the clock)
are modelled as oracle values passed in explicitly; the mutable token
cache is threaded as explicit state.  Each modelled function also returns
the number of outbound requests it attempted, so "no network call"
claims can be stated as a count.  A Python function that raises an
uncaught exception is modelled as returning `PyResult.raised` (Flask
turns this into a 500 response); a caught, logged failure keeps the
source's actual return value.

Fidelity notes on the source, reflected below:
  * `if access_token_cache["token"] and ...` and `if not signature:` use
    Python truthiness, so the empty string behaves like `None`
    (`pyTruthyOptStr`).
  * In each `except requests.exceptions.RequestException` block the code
    prints `response.text`; when the `requests.post`/`requests.get` call
    itself raised (network error), the local `response` was never bound,
    so the print raises `UnboundLocalError`, which is not caught — the
    function raises instead of returning its fallback value.  This is the
    `netError` oracle case.
  * `token_data['access_token']` / `token_data['expires_in']` raise
    `KeyError` (uncaught) when the key is absent; the `expires_in` lookup
    happens after the token slot of the cache was already overwritten.
  * `data['source']['userId']` raises (uncaught) when `source` is absent
    or not an object or lacks `userId`.
  * `return data.get('challenge')` returns `None` to Flask when the
    challenge is absent, and Flask raises a `TypeError` (500); a string
    challenge becomes a 200 response whose body is the string.
-/

/-- Python truthiness of an optional string (`None` and `""` are falsy). -/
def pyTruthyOptStr : Option String → Bool
  | none => false
  | some s => !(s == "")

/-- Result of running a Python code path: a returned value, or an uncaught
exception propagating to the caller. -/
inductive PyResult (α : Type) where
  | ok (a : α)
  | raised
  deriving DecidableEq

/-- A parsed JSON value as produced by `request.get_json()` /
`response.json()`; an object is the association list of its entries
(duplicate keys do not arise from parsing). -/
inductive Json where
  | null
  | bool (bv : Bool)
  | num (iv : Int)
  | str (sv : String)
  | arr (items : List Json)
  | obj (entries : List (String × Json))

/-- Field lookup in a JSON object's field list (Python `dict` access). -/
def jlook : List (String × Json) → String → Option Json
  | [], _ => none
  | (k, v) :: rest, key => if k = key then some v else jlook rest key

/-- Python `d.get(k) == "lit"`: true exactly when the field holds that string. -/
def isStrV : Option Json → String → Bool
  | some (.str s), t => s == t
  | _, _ => false

/-- The global `access_token_cache` dict: a token slot and an absolute
expiry timestamp (seconds; initial state is `{"token": None, "expires_at": 0}`). -/
structure TokenCache where
  token : Option String
  expires_at : Int
  deriving DecidableEq

/-- Outcome of `jwt.encode(...)`: an assertion string, or the signing raised
(caught by the source, which then returns `None`). -/
inductive JwtSignResult where
  | ok (assertion : String)
  | err
  deriving DecidableEq

/-- The parsed JSON of a 2xx token-endpoint response: which of the two keys
the source reads are present, and their values. -/
structure TokenJson where
  access_token : Option String
  expires_in : Option Int
  deriving DecidableEq

/-- Outcome of the token-endpoint POST.
`netError`: `requests.post` itself raised (so the local `response` is unbound);
`httpError`: non-2xx, `raise_for_status` raised; `jsonError`: 2xx but
`response.json()` raised; `ok`: 2xx with parsed JSON. -/
inductive TokenHttpResult where
  | netError
  | httpError
  | jsonError
  | ok (td : TokenJson)
  deriving DecidableEq

/-- Oracle for one run of `get_lineworks_access_token`'s external effects. -/
structure TokenEnv where
  jwtSign : JwtSignResult
  tokenHttp : TokenHttpResult
  deriving DecidableEq

/-- Result of `get_lineworks_access_token`: the Python return value (the
token string, or `None`, or an uncaught exception), the cache after the
call, and how many POSTs to the token endpoint were attempted. -/
structure TokenOutcome where
  result : PyResult (Option String)
  cache : TokenCache
  exchanges : Nat
  deriving DecidableEq

/-- `get_lineworks_access_token` (src/app.py lines 42-100).
Cache hit requires a truthy token and `expires_at > current_time`.
On the exchange path: signing failure returns `None`; a network error at
`requests.post` raises (unbound `response` in the except block); non-2xx
and malformed JSON return `None`; a 2xx JSON response missing
`access_token` raises `KeyError` before touching the cache, and one
missing `expires_in` raises `KeyError` after the token slot was already
overwritten; otherwise the cache is set to the new token with
`expires_at = current_time + expires_in - 300` and the token returned. -/
def get_lineworks_access_token (env : TokenEnv) (cache : TokenCache)
    (current_time : Int) : TokenOutcome :=
  if pyTruthyOptStr cache.token && decide (cache.expires_at > current_time) then
    ⟨.ok cache.token, cache, 0⟩
  else
    match env.jwtSign with
    | .err => ⟨.ok none, cache, 0⟩
    | .ok _ =>
      match env.tokenHttp with
      | .netError => ⟨.raised, cache, 1⟩
      | .httpError => ⟨.ok none, cache, 1⟩
      | .jsonError => ⟨.ok none, cache, 1⟩
      | .ok td =>
        match td.access_token with
        | none => ⟨.raised, cache, 1⟩
        | some tok =>
          match td.expires_in with
          | none => ⟨.raised, ⟨some tok, cache.expires_at⟩, 1⟩
          | some e => ⟨.ok (some tok), ⟨some tok, current_time + e - 300⟩, 1⟩

/-- Outcome of the user-profile GET. `ok d` is a 2xx response whose parsed
JSON has the string `d` at path `userName.displayName` when `d = some _`,
and lacks that path otherwise (the source then takes the `.get` defaults). -/
inductive UserHttpResult where
  | netError
  | httpError
  | jsonError
  | ok (displayName : Option String)
  deriving DecidableEq

/-- Result of `get_lineworks_user_name`: the returned display name (or an
uncaught exception), the cache after the embedded token call, and the
outbound call counts (token exchanges, profile GETs). -/
structure UserNameOutcome where
  result : PyResult String
  cache : TokenCache
  exchanges : Nat
  lookups : Nat
  deriving DecidableEq

/-- `get_lineworks_user_name` (src/app.py lines 103-123).
A falsy token (None or "") yields the placeholder `不明なユーザー (Token
Error)` with no GET; a network error at `requests.get` raises (unbound
`response` in the except block); non-2xx / malformed JSON are caught into
`不明なユーザー (API Error)`; a missing display-name path falls back to
`不明なユーザー`. -/
def get_lineworks_user_name (tenv : TokenEnv) (uenv : UserHttpResult)
    (cache : TokenCache) (current_time : Int) : UserNameOutcome :=
  let t := get_lineworks_access_token tenv cache current_time
  match t.result with
  | .raised => ⟨.raised, t.cache, t.exchanges, 0⟩
  | .ok tok =>
    if pyTruthyOptStr tok = false then
      ⟨.ok "不明なユーザー (Token Error)", t.cache, t.exchanges, 0⟩
    else
      match uenv with
      | .netError => ⟨.raised, t.cache, t.exchanges, 1⟩
      | .httpError => ⟨.ok "不明なユーザー (API Error)", t.cache, t.exchanges, 1⟩
      | .jsonError => ⟨.ok "不明なユーザー (API Error)", t.cache, t.exchanges, 1⟩
      | .ok d => ⟨.ok (d.getD "不明なユーザー"), t.cache, t.exchanges, 1⟩

/-- The five Backlog environment settings, each an optional string
(`os.getenv` yields `None` when unset). -/
structure BacklogConfig where
  space_id : Option String
  api_key : Option String
  project_id : Option String
  issue_type_id : Option String
  priority_id : Option String
  deriving DecidableEq

/-- The source's `all([...])` guard: every one of the five settings truthy. -/
def backlogConfigured (cfg : BacklogConfig) : Bool :=
  pyTruthyOptStr cfg.space_id && pyTruthyOptStr cfg.api_key &&
  pyTruthyOptStr cfg.project_id && pyTruthyOptStr cfg.issue_type_id &&
  pyTruthyOptStr cfg.priority_id

/-- Outcome of the ticket-endpoint POST (same taxonomy as the token POST;
`jsonError` is a 2xx response whose body fails to parse in the success log). -/
inductive BacklogHttpResult where
  | netError
  | httpError
  | jsonError
  | ok
  deriving DecidableEq

/-- Result of `create_backlog_issue`: the returned boolean (or an uncaught
exception), the number of POSTs attempted, and the summary/description
payloads of those POSTs (the description is the Python value of
`content.get('text')`: a JSON value, or None). -/
structure BacklogOutcome where
  result : PyResult Bool
  posts : Nat
  tickets : List (String × Option Json)

/-- `create_backlog_issue` (src/app.py lines 126-151).
Any falsy setting short-circuits to `False` with no HTTP request; a
network error at `requests.post` raises (unbound `response` in the except
block); non-2xx and malformed JSON are caught into `False`. -/
def create_backlog_issue (cfg : BacklogConfig) (henv : BacklogHttpResult)
    (subject : String) (description : Option Json) : BacklogOutcome :=
  if backlogConfigured cfg = false then
    ⟨.ok false, 0, []⟩
  else
    match henv with
    | .netError => ⟨.raised, 1, [(subject, description)]⟩
    | .httpError => ⟨.ok false, 1, [(subject, description)]⟩
    | .jsonError => ⟨.ok false, 1, [(subject, description)]⟩
    | .ok => ⟨.ok true, 1, [(subject, description)]⟩

/-- An HTTP response produced by the handler (status and body; for the
`abort(...)` branches the error-page body is not modelled). -/
structure HttpResponse where
  status : Nat
  body : String
  deriving DecidableEq

/-- Oracle environment for one run of the `callback` handler.
`secretMac rawBody` is the base64 HMAC-SHA256 of the raw body under
`LINEWORKS_BOT_SECRET` — the `expected_signature` the source computes;
HMAC-SHA256 itself stays abstract, and `hmac.compare_digest` on the
(ASCII) signature strings is constant-time string equality. -/
structure CallbackEnv where
  secretMac : String → String
  tokenEnv : TokenEnv
  userHttp : UserHttpResult
  cfg : BacklogConfig
  backlogHttp : BacklogHttpResult
  now : Int

/-- Result of one `POST /callback` request: the HTTP response (or an
uncaught exception, which Flask turns into a 500), the token cache after
the request, and the outbound call counts and ticket payloads. -/
structure CallbackOutcome where
  response : PyResult HttpResponse
  cache : TokenCache
  exchanges : Nat
  lookups : Nat
  ticketPosts : Nat
  tickets : List (String × Option Json)

/-- An `abort(status)` outcome: no outbound calls, cache untouched. -/
def abortOut (status : Nat) (cache : TokenCache) : CallbackOutcome :=
  ⟨.ok ⟨status, ""⟩, cache, 0, 0, 0, []⟩

/-- An uncaught exception raised before any outbound call. -/
def raisedOut (cache : TokenCache) : CallbackOutcome :=
  ⟨.raised, cache, 0, 0, 0, []⟩

/-- The plain `return "OK", 200` outcome with no outbound calls. -/
def okOut (cache : TokenCache) : CallbackOutcome :=
  ⟨.ok ⟨200, "OK"⟩, cache, 0, 0, 0, []⟩

/-- Flask's conversion of `return data.get('challenge')`:
a string becomes the 200 response body verbatim; a dict or list is
jsonified into a 200 response (its serialized body is not needed by any
property below and is left empty); `None` (absent field or JSON null) and
scalars make Flask raise a `TypeError` (500). -/
def flaskChallenge (cache : TokenCache) : Option Json → CallbackOutcome
  | some (.str s) => ⟨.ok ⟨200, s⟩, cache, 0, 0, 0, []⟩
  | some (.obj _) => ⟨.ok ⟨200, ""⟩, cache, 0, 0, 0, []⟩
  | some (.arr _) => ⟨.ok ⟨200, ""⟩, cache, 0, 0, 0, []⟩
  | _ => raisedOut cache

/-- The `if data.get('type') == 'message':` branch of `callback`
(src/app.py lines 179-187), given the body's object fields.
`content = data.get('content', {})` defaults to an empty dict but keeps a
present non-dict value, on which `content.get` raises; `data['source']
['userId']` raises when `source` is absent, not a dict, or lacks the key;
`content.get('text')` yields Python `None` for an absent field or JSON
null.  An exception raised inside `get_lineworks_user_name` or
`create_backlog_issue` propagates out of the handler. -/
def handleMessage (env : CallbackEnv) (cache : TokenCache)
    (fs : List (String × Json)) : CallbackOutcome :=
  match (jlook fs "content").getD (.obj []) with
  | .obj cfs =>
    if isStrV (jlook cfs "type") "text" then
      match jlook fs "source" with
      | some (.obj sfs) =>
        match jlook sfs "userId" with
        | some _ =>
          let msgText := match jlook cfs "text" with
            | some .null => none
            | mt => mt
          let u := get_lineworks_user_name env.tokenEnv env.userHttp cache env.now
          match u.result with
          | .raised => ⟨.raised, u.cache, u.exchanges, u.lookups, 0, []⟩
          | .ok name =>
            let b := create_backlog_issue env.cfg env.backlogHttp
              ("【LINE WORKS】" ++ name ++ "さんからのメッセージ") msgText
            match b.result with
            | .raised => ⟨.raised, u.cache, u.exchanges, u.lookups, b.posts, b.tickets⟩
            | .ok _ => ⟨.ok ⟨200, "OK"⟩, u.cache, u.exchanges, u.lookups, b.posts, b.tickets⟩
        | none => raisedOut cache
      | some _ => raisedOut cache
      | none => raisedOut cache
    else okOut cache
  | _ => raisedOut cache

/-- The `POST /callback` handler (src/app.py lines 154-189).
`signature` is the `X-Works-Signature` header (absent, or its string
value); `rawBody` is the raw request body over which the HMAC is
computed; `parsedBody` is the outcome of Flask's `request.get_json()`
on that body (`none` = unparsable JSON, on which Flask aborts with 400).
A falsy header (absent or empty) gives 400; a signature different from
`expected_signature` gives 401; then the handler dispatches on the
parsed body's `type` field (`data.get('type')` raises on a non-dict
body, e.g. JSON null). -/
def callback (env : CallbackEnv) (cache : TokenCache) (signature : Option String)
    (rawBody : String) (parsedBody : Option Json) : CallbackOutcome :=
  match signature with
  | none => abortOut 400 cache
  | some sig =>
    if sig = "" then abortOut 400 cache
    else if sig = env.secretMac rawBody then
      match parsedBody with
      | none => abortOut 400 cache
      | some (.obj fs) =>
        if isStrV (jlook fs "type") "url_verification" then
          flaskChallenge cache (jlook fs "challenge")
        else if isStrV (jlook fs "type") "message" then
          handleMessage env cache fs
        else okOut cache
      | some _ => raisedOut cache
    else abortOut 401 cache

/-- The HTTP status the upstream caller observes (`none` for an uncaught
exception, which Flask reports as a 500 error). -/
def respStatus (o : CallbackOutcome) : Option Nat :=
  match o.response with
  | .ok r => some r.status
  | .raised => none

/-- The well-formedness conditions on a parsed body under which the
handler cannot hit one of its uncaught-exception paths: the body is a
JSON object; a `url_verification` body carries a string challenge; a
`message` body's `content`, when present, is an object, and if its
content type is `text` its `source` is an object containing `userId`. -/
def bodySafe : Json → Bool
  | .obj fs =>
    (if isStrV (jlook fs "type") "url_verification" then
      match jlook fs "challenge" with
      | some (.str _) => true
      | _ => false
    else true)
    &&
    (if isStrV (jlook fs "type") "message" then
      match (jlook fs "content").getD (.obj []) with
      | .obj cfs =>
        if isStrV (jlook cfs "type") "text" then
          match jlook fs "source" with
          | some (.obj sfs) => (jlook sfs "userId").isSome
          | _ => false
        else true
      | _ => false
    else true)
  | _ => false

/-! ### Concrete fixtures used by witnesses and counterexamples -/

/-- A token environment whose signing and exchange both succeed. -/
def tenvOk : TokenEnv := ⟨.ok "assertion", .ok ⟨some "fresh", some 1000⟩⟩

/-- A cache holding a nonempty token that is valid at times before 100. -/
def validCache : TokenCache := ⟨some "tk", 100⟩

/-- A fully populated Backlog configuration. -/
def cfgFull : BacklogConfig := ⟨some "sp", some "key", some "1", some "2", some "3"⟩

/-- A Backlog configuration with the API key unset. -/
def cfgMissing : BacklogConfig := ⟨some "sp", none, some "1", some "2", some "3"⟩

/-- A callback environment in which every outbound interaction succeeds
(the MAC of every body is the string "SG"). -/
def cenvBase : CallbackEnv :=
  ⟨fun _ => "SG", tenvOk, .ok (some "田中"), cfgFull, .ok, 0⟩

/-- `cenvBase` with a network error on the user-profile GET. -/
def cenvUserNet : CallbackEnv :=
  ⟨fun _ => "SG", tenvOk, .netError, cfgFull, .ok, 0⟩

/-- The spec's example message body:
`{"type":"message","source":{"userId":"u1"},"content":{"type":"text","text":"hello"}}`. -/
def msgHelloBody : Json :=
  .obj [("type", .str "message"),
        ("source", .obj [("userId", .str "u1")]),
        ("content", .obj [("type", .str "text"), ("text", .str "hello")])]

/-- A text-message body lacking the `source` field. -/
def noSourceBody : Json :=
  .obj [("type", .str "message"),
        ("content", .obj [("type", .str "text"), ("text", .str "hi")])]

/-- A url_verification body with challenge "abc". -/
def urlVerifyBody : Json :=
  .obj [("type", .str "url_verification"), ("challenge", .str "abc")]

/-! ### Helper lemmas -/

/-- The token function attempts at most one POST to the token endpoint. -/
theorem token_exchanges_le_one (env : TokenEnv) (cache : TokenCache) (n : Int) :
    (get_lineworks_access_token env cache n).exchanges ≤ 1 := by
  rcases env with ⟨js, th⟩
  unfold get_lineworks_access_token
  split
  · exact Nat.zero_le 1
  · cases js
    · cases th
      · simp
      · simp
      · simp
      · rename_i td
        rcases td with ⟨ta, te⟩
        cases ta <;> cases te <;> simp
    · simp

/-- A valid cache (nonempty token, not yet expired) is returned as-is,
with no signing and no network call, for every oracle environment. -/
theorem token_cache_hit (env : TokenEnv) (cache : TokenCache) (t : String) (n : Int)
    (ht : cache.token = some t) (hne : t ≠ "") (hlt : n < cache.expires_at) :
    get_lineworks_access_token env cache n = ⟨.ok (some t), cache, 0⟩ := by
  have htr : pyTruthyOptStr cache.token = true := by
    rw [ht]; simp [pyTruthyOptStr, hne]
  unfold get_lineworks_access_token
  rw [if_pos (by simp [htr, hlt])]
  rw [ht]

/-- Whenever the token call returns a token `t`, the post-state cache holds
exactly `t` in its token slot. -/
theorem token_result_some_cache (env : TokenEnv) (cache : TokenCache) (n : Int) (t : String)
    (h : (get_lineworks_access_token env cache n).result = .ok (some t)) :
    (get_lineworks_access_token env cache n).cache.token = some t := by
  rcases env with ⟨js, th⟩
  unfold get_lineworks_access_token at h ⊢
  split at h
  · rw [if_pos (by assumption)]
    simpa using h
  · rw [if_neg (by assumption)]
    cases js
    · cases th
      · simp_all
      · simp_all
      · simp_all
      · rename_i td
        rcases td with ⟨ta, te⟩
        cases ta <;> cases te <;> simp_all
    · simp_all

/-- A successful exchange stores a token whose expiry is in the future only
as recorded in the cache; what matters below: whenever the token call
returns `ok (some t)` with `t ≠ ""`, a second call strictly before the
post-state expiry returns the same token from cache with no network call. -/
theorem token_second_fetch (env₁ env₂ : TokenEnv) (c : TokenCache) (n₁ n₂ : Int) (s : String)
    (h : (get_lineworks_access_token env₁ c n₁).result = .ok (some s)) (hne : s ≠ "")
    (hwin : n₂ < (get_lineworks_access_token env₁ c n₁).cache.expires_at) :
    get_lineworks_access_token env₂ (get_lineworks_access_token env₁ c n₁).cache n₂
      = ⟨.ok (some s), (get_lineworks_access_token env₁ c n₁).cache, 0⟩ := by
  exact token_cache_hit env₂ _ s n₂ (token_result_some_cache env₁ c n₁ s h) hne hwin

/-- A ticket-creation call whose POST does not hit the network-error path
never raises. -/
theorem backlog_not_raised (cfg : BacklogConfig) (henv : BacklogHttpResult)
    (s : String) (d : Option Json) (h : henv ≠ .netError) :
    (create_backlog_issue cfg henv s d).result ≠ .raised := by
  unfold create_backlog_issue
  split
  · simp
  · cases henv <;> simp_all

/-! ### Claim theorems -/

/-- C1 (amended): a cache holding a NONEMPTY token `t` with
`expires_at > current_time` is returned as-is by
`get_lineworks_access_token`: the result is exactly `t`, no JWT signing
and no token-endpoint POST happens (the outcome is independent of the
oracle environment and the exchange count is 0), and the cache is
unchanged.  Moreover, whenever a call returns a nonempty token, any
second call strictly before the post-state `expires_at` (which embodies
the 300-second early-expiry margin) returns the identical token with no
further exchange, and the first call performed at most one exchange. -/
theorem C1_cached_token_reuse (env : TokenEnv) (cache : TokenCache) (t : String) (now : Int)
    (ht : cache.token = some t) (hne : t ≠ "") (hlt : now < cache.expires_at) :
    get_lineworks_access_token env cache now = ⟨.ok (some t), cache, 0⟩
    ∧ ∀ (env₁ env₂ : TokenEnv) (c : TokenCache) (n₁ n₂ : Int) (s : String),
        (get_lineworks_access_token env₁ c n₁).result = .ok (some s) → s ≠ "" →
        n₂ < (get_lineworks_access_token env₁ c n₁).cache.expires_at →
        get_lineworks_access_token env₂ (get_lineworks_access_token env₁ c n₁).cache n₂
          = ⟨.ok (some s), (get_lineworks_access_token env₁ c n₁).cache, 0⟩
        ∧ (get_lineworks_access_token env₁ c n₁).exchanges ≤ 1 := by
  constructor
  · exact token_cache_hit env cache t now ht hne hlt
  · intro env₁ env₂ c n₁ n₂ s h hs hwin
    exact ⟨token_second_fetch env₁ env₂ c n₁ n₂ s h hs hwin,
           token_exchanges_le_one env₁ c n₁⟩

/-- Witness for C1 at a concrete valid cache. -/
theorem C1_cached_token_reuse_wit :
    get_lineworks_access_token tenvOk validCache 10 = ⟨.ok (some "tk"), validCache, 0⟩ :=
  (C1_cached_token_reuse tenvOk validCache "tk" 10 rfl (by decide) (by decide)).1

/-- Counterexample to C1 as stated: with the cache holding the token `""`
(a string) and `expires_at = 10 > 0 = now`, the call does NOT return the
held token with no network call — Python truthiness treats `""` like no
token, so a fresh exchange runs. -/
theorem C1_empty_token_cex :
    ¬ ((get_lineworks_access_token ⟨.ok "a", .ok ⟨some "fresh", some 1000⟩⟩
          ⟨some "", 10⟩ 0).result = .ok (some "")
       ∧ (get_lineworks_access_token ⟨.ok "a", .ok ⟨some "fresh", some 1000⟩⟩
          ⟨some "", 10⟩ 0).exchanges = 0) := by
  decide

/-- C2 (amended): when the cache is expired (`expires_at ≤ now`) or holds
no token, and the JWT signing step succeeds, the call performs exactly
one exchange at the token endpoint; and if the exchange succeeds with an
`access_token` and integer `expires_in`, the returned token is stored
with `expires_at = now + expires_in − 300` and returned. -/
theorem C2_expired_cache_exchange (env : TokenEnv) (cache : TokenCache) (now : Int) (a : String)
    (hjwt : env.jwtSign = .ok a)
    (hexp : cache.expires_at ≤ now ∨ cache.token = none) :
    (get_lineworks_access_token env cache now).exchanges = 1
    ∧ ∀ (tok : String) (e : Int), env.tokenHttp = .ok ⟨some tok, some e⟩ →
        get_lineworks_access_token env cache now
          = ⟨.ok (some tok), ⟨some tok, now + e - 300⟩, 1⟩ := by
  have hcv : (pyTruthyOptStr cache.token && decide (cache.expires_at > now)) = false := by
    rcases hexp with h | h
    · have : ¬ (cache.expires_at > now) := not_lt.mpr h
      simp [this]
    · simp [h, pyTruthyOptStr]
  constructor
  · unfold get_lineworks_access_token
    rw [if_neg (by simp [hcv])]
    rw [hjwt]
    rcases env with ⟨js, th⟩
    cases th
    · simp
    · simp
    · simp
    · rename_i td
      rcases td with ⟨ta, te⟩
      cases ta <;> cases te <;> simp
  · intro tok e htt
    unfold get_lineworks_access_token
    rw [if_neg (by simp [hcv])]
    rw [hjwt, htt]

/-- Witness for C2 on the empty initial cache with a successful exchange. -/
theorem C2_expired_cache_exchange_wit :
    (get_lineworks_access_token tenvOk ⟨none, 0⟩ 7).exchanges = 1
    ∧ get_lineworks_access_token tenvOk ⟨none, 0⟩ 7
        = ⟨.ok (some "fresh"), ⟨some "fresh", 7 + 1000 - 300⟩, 1⟩ := by
  have h := C2_expired_cache_exchange tenvOk ⟨none, 0⟩ 7 "assertion" rfl (Or.inr rfl)
  exact ⟨h.1, h.2 "fresh" 1000 rfl⟩

/-- Counterexample to C2 as stated: when JWT signing raises, a call on an
expired cache performs zero exchanges, not exactly one (the function
returns `None` before reaching the token endpoint). -/
theorem C2_signing_failure_cex :
    ¬ ((get_lineworks_access_token ⟨.err, .ok ⟨some "T", some 1000⟩⟩
          ⟨none, 0⟩ 5).exchanges = 1) := by
  decide

/-- C7 (code bug): at the two failing inputs the token function does not
return `None` with an unchanged cache.  First conjunct: a network error
at `requests.post` makes the except block's `print(response.text)` hit
the unbound local `response`, so the function raises `UnboundLocalError`
instead of returning `None`.  Second conjunct: a 2xx response whose JSON
carries `access_token` but no `expires_in` raises `KeyError` after the
cache's token slot was already overwritten (cache changed from
`{"old", 0}` to `{"T", 0}`). -/
theorem C7_uncaught_failure_paths :
    get_lineworks_access_token ⟨.ok "a", .netError⟩ ⟨none, 0⟩ 5
      = ⟨.raised, ⟨none, 0⟩, 1⟩
    ∧ get_lineworks_access_token ⟨.ok "a", .ok ⟨some "T", none⟩⟩ ⟨some "old", 0⟩ 5
      = ⟨.raised, ⟨some "T", 0⟩, 1⟩ := by
  exact ⟨rfl, rfl⟩

/-- C10: if any one of the five Backlog settings is unset or empty
(Python-falsy), `create_backlog_issue` returns `False` with zero HTTP
requests to the tracker endpoint. -/
theorem C10_missing_config_no_post (cfg : BacklogConfig) (henv : BacklogHttpResult)
    (s : String) (d : Option Json)
    (h : pyTruthyOptStr cfg.space_id = false ∨ pyTruthyOptStr cfg.api_key = false
       ∨ pyTruthyOptStr cfg.project_id = false ∨ pyTruthyOptStr cfg.issue_type_id = false
       ∨ pyTruthyOptStr cfg.priority_id = false) :
    create_backlog_issue cfg henv s d = ⟨.ok false, 0, []⟩ := by
  have hc : backlogConfigured cfg = false := by
    rcases h with h | h | h | h | h <;> simp [backlogConfigured, h]
  unfold create_backlog_issue
  rw [if_pos hc]

/-- Witness for C10 with the API key unset. -/
theorem C10_missing_config_no_post_wit :
    create_backlog_issue cfgMissing .ok "subject" (some (.str "body"))
      = ⟨.ok false, 0, []⟩ :=
  C10_missing_config_no_post cfgMissing .ok "subject" (some (.str "body"))
    (Or.inr (Or.inl (by decide)))

/-- C5 (amended): a request with no `X-Works-Signature` header gets
status 400 with zero outbound calls and an untouched cache; a request
with a present, NONEMPTY, mismatched signature gets status 401, also
with zero outbound calls. -/
theorem C5_reject_statuses (env : CallbackEnv) (cache : TokenCache) (raw : String)
    (pb : Option Json) (s : String)
    (hne : s ≠ "") (hmm : s ≠ env.secretMac raw) :
    callback env cache none raw pb = ⟨.ok ⟨400, ""⟩, cache, 0, 0, 0, []⟩
    ∧ callback env cache (some s) raw pb = ⟨.ok ⟨401, ""⟩, cache, 0, 0, 0, []⟩ := by
  constructor
  · rfl
  · simp only [callback]
    rw [if_neg hne, if_neg hmm]
    rfl

/-- Witness for C5 at a concrete missing and a concrete mismatched header. -/
theorem C5_reject_statuses_wit :
    callback cenvBase validCache none "raw" none
      = ⟨.ok ⟨400, ""⟩, validCache, 0, 0, 0, []⟩
    ∧ callback cenvBase validCache (some "BAD") "raw" none
      = ⟨.ok ⟨401, ""⟩, validCache, 0, 0, 0, []⟩ :=
  C5_reject_statuses cenvBase validCache "raw" none "BAD" (by decide) (by decide)

/-- Counterexample to C5 as stated: a present but EMPTY signature header
is falsy in Python, so `if not signature: abort(400)` fires and the
response is 400, not the claimed 401, even though the header is present
and mismatched. -/
theorem C5_empty_header_cex :
    respStatus (callback cenvBase validCache (some "") "raw" none) = some 400
    ∧ respStatus (callback cenvBase validCache (some "") "raw" none) ≠ some 401 := by
  decide

/-- C6: a validly signed `url_verification` body with a string challenge
is answered with a 200 response whose body is exactly the challenge, with
no outbound call and no change to the token cache. -/
theorem C6_url_verification_echo (env : CallbackEnv) (cache : TokenCache) (raw : String)
    (fs : List (String × Json)) (c : String)
    (hmac1 : env.secretMac raw ≠ "")
    (hty : jlook fs "type" = some (.str "url_verification"))
    (hch : jlook fs "challenge" = some (.str c)) :
    callback env cache (some (env.secretMac raw)) raw (some (.obj fs))
      = ⟨.ok ⟨200, c⟩, cache, 0, 0, 0, []⟩ := by
  simp only [callback]
  rw [if_neg hmac1, if_pos trivial, hty, hch]
  rfl

/-- Witness for C6 on the challenge "abc". -/
theorem C6_url_verification_echo_wit :
    callback cenvBase validCache (some "SG") "raw" (some urlVerifyBody)
      = ⟨.ok ⟨200, "abc"⟩, validCache, 0, 0, 0, []⟩ :=
  C6_url_verification_echo cenvBase validCache "raw"
    [("type", .str "url_verification"), ("challenge", .str "abc")] "abc"
    (by decide) rfl rfl

/-- C8 (code bug): at the failing input — a validly signed text-message
event whose user-profile GET raises a network error — the handler does
not respond 200 with a placeholder-named ticket; `get_lineworks_user_name`
hits the unbound local `response` in its except block and raises, and the
exception propagates out of the handler (Flask 500). -/
theorem C8_lookup_netfail_crash :
    (callback cenvUserNet validCache (some "SG") "raw" (some msgHelloBody)).response = .raised
    ∧ (get_lineworks_user_name cenvUserNet.tokenEnv cenvUserNet.userHttp validCache 0).result
        = .raised
    ∧ (callback cenvUserNet validCache (some "SG") "raw" (some msgHelloBody)).ticketPosts = 0 :=
  ⟨rfl, rfl, rfl⟩

/-- C9: for the spec's example body
`{"type":"message","source":{"userId":"u1"},"content":{"type":"text","text":"hello"}}`
with a valid signature, when the user lookup returns display name 田中
and the Backlog configuration is complete, the handler makes exactly one
ticket-creation call, with summary `【LINE WORKS】田中さんからのメッセージ`
and description `hello`. -/
theorem C9_example_ticket (env : CallbackEnv) (cache : TokenCache) (raw : String)
    (hmac1 : env.secretMac raw ≠ "")
    (hcfg : backlogConfigured env.cfg = true)
    (hname : (get_lineworks_user_name env.tokenEnv env.userHttp cache env.now).result
        = .ok "田中") :
    (callback env cache (some (env.secretMac raw)) raw (some msgHelloBody)).tickets
      = [("【LINE WORKS】田中さんからのメッセージ", some (.str "hello"))]
    ∧ (callback env cache (some (env.secretMac raw)) raw (some msgHelloBody)).ticketPosts
      = 1 := by
  obtain ⟨mac, tenv, uenv, cfg, bh, now⟩ := env
  simp only at hmac1 hcfg hname
  rcases hU : get_lineworks_user_name tenv uenv cache now with ⟨r, c2, ex, lk⟩
  rw [hU] at hname
  simp only at hname
  subst hname
  cases bh <;>
    simp [callback, msgHelloBody, handleMessage, jlook, isStrV, create_backlog_issue,
          hU, hcfg, if_neg hmac1]

/-- Witness for C9 with a valid cached token and a profile lookup
returning 田中. -/
theorem C9_example_ticket_wit :
    (callback cenvBase validCache (some "SG") "raw" (some msgHelloBody)).tickets
      = [("【LINE WORKS】田中さんからのメッセージ", some (.str "hello"))]
    ∧ (callback cenvBase validCache (some "SG") "raw" (some msgHelloBody)).ticketPosts = 1 :=
  C9_example_ticket cenvBase validCache "raw" (by decide) (by decide) rfl

/-- C3 (amended): once the signature matches, the handler answers 200 for
every body that parses as a JSON object and avoids the handler's
uncaught-exception paths (`bodySafe`: a `url_verification` body carries a
string challenge; a `message`/`text` body's `content` is an object and
its `source` is an object containing `userId`), provided the user-lookup
path does not raise (no network error at the token POST or profile GET,
no 2xx token response missing `access_token`/`expires_in`) and the
ticket POST does not hit a network error.  The outcomes of the token
exchange, the user lookup and the ticket creation are otherwise
irrelevant to the 200. -/
theorem C3_failsoft_200 (env : CallbackEnv) (cache : TokenCache) (raw : String) (data : Json)
    (hmac1 : env.secretMac raw ≠ "")
    (hsafe : bodySafe data = true)
    (hlook : (get_lineworks_user_name env.tokenEnv env.userHttp cache env.now).result
        ≠ .raised)
    (hpost : env.backlogHttp ≠ .netError) :
    respStatus (callback env cache (some (env.secretMac raw)) raw (some data)) = some 200 := by
  cases data with
  | obj fs =>
    simp only [bodySafe] at hsafe
    rw [Bool.and_eq_true] at hsafe
    obtain ⟨hA, hB⟩ := hsafe
    simp only [callback]
    rw [if_neg hmac1, if_pos trivial]
    by_cases hu : isStrV (jlook fs "type") "url_verification" = true
    · rw [if_pos hu]
      rw [if_pos hu] at hA
      rcases hch : jlook fs "challenge" with _ | v
      · rw [hch] at hA; exact Bool.noConfusion hA
      · rw [hch] at hA
        rcases v with _ | b | n | s | es | fs2
        · exact Bool.noConfusion hA
        · exact Bool.noConfusion hA
        · exact Bool.noConfusion hA
        · rfl
        · exact Bool.noConfusion hA
        · exact Bool.noConfusion hA
    · rw [if_neg hu]
      by_cases hm : isStrV (jlook fs "type") "message" = true
      · rw [if_pos hm]
        rw [if_pos hm] at hB
        simp only [handleMessage]
        rcases hcont : (jlook fs "content").getD (.obj []) with _ | b | n | s | es | cfs
        · rw [hcont] at hB; exact Bool.noConfusion hB
        · rw [hcont] at hB; exact Bool.noConfusion hB
        · rw [hcont] at hB; exact Bool.noConfusion hB
        · rw [hcont] at hB; exact Bool.noConfusion hB
        · rw [hcont] at hB; exact Bool.noConfusion hB
        · rw [hcont] at hB
          dsimp only at hB ⊢
          by_cases htx : isStrV (jlook cfs "type") "text" = true
          · rw [if_pos htx]
            rw [if_pos htx] at hB
            rcases hs : jlook fs "source" with _ | sv
            · rw [hs] at hB; exact Bool.noConfusion hB
            · rw [hs] at hB
              rcases sv with _ | b2 | n2 | s2 | es2 | sfs
              · exact Bool.noConfusion hB
              · exact Bool.noConfusion hB
              · exact Bool.noConfusion hB
              · exact Bool.noConfusion hB
              · exact Bool.noConfusion hB
              · dsimp only at hB ⊢
                rcases hj : jlook sfs "userId" with _ | jv
                · rw [hj] at hB; exact Bool.noConfusion hB
                · dsimp only
                  split
                  · rename_i heq
                    exact absurd heq hlook
                  · split
                    · rename_i heq
                      exact absurd heq (backlog_not_raised _ _ _ _ hpost)
                    · rfl
          · rw [if_neg htx]
            rfl
      · rw [if_neg hm]
        rfl
  | null => exact Bool.noConfusion hsafe
  | bool b => exact Bool.noConfusion hsafe
  | num n => exact Bool.noConfusion hsafe
  | str s => exact Bool.noConfusion hsafe
  | arr es => exact Bool.noConfusion hsafe

/-- Witness for C3 on the example message body with a benign environment. -/
theorem C3_failsoft_200_wit :
    respStatus (callback cenvBase validCache (some "SG") "raw" (some msgHelloBody))
      = some 200 :=
  C3_failsoft_200 cenvBase validCache "raw" msgHelloBody
    (by decide) (by decide) (by decide) (by decide)

/-- Counterexample to C3 as stated: a validly signed text-message body
lacking the `source` field makes `data['source']['userId']` raise
`KeyError`, so the handler raises an unhandled error (Flask 500) rather
than answering 200 — even though every outbound oracle in the
environment is benign. -/
theorem C3_missing_source_cex :
    (callback cenvBase validCache (some "SG") "raw" (some noSourceBody)).response = .raised
    ∧ respStatus (callback cenvBase validCache (some "SG") "raw" (some noSourceBody))
        ≠ some 200 := by
  exact ⟨rfl, by decide⟩
